import Mathlib

/-!
# Green Lake Bike Tracker: a shallow embedding of `src/App.js`

The development follows the source file top to bottom:

* the JavaScript values the code handles (numbers that may be `NaN`, `Date` objects
  that may be invalid, the strings produced by the date and time controls);
* effect 5, the day and time-of-day filter `filteredPoints` and the map update;
* the tracking controller: `startTracking`, `stopTracking`, `saveLocation` and the
  callbacks they register, as a transition system over an explicit state.

Platform behaviour the source relies on (ECMAScript `Date`, timers, the geolocation
API, Leaflet layers) is modelled next to the code that uses it, and each such model
says which platform rule it stands for.
-/

set_option autoImplicit false

namespace GreenLake

/-! ## JavaScript values -/

/-- A JavaScript number used as a coordinate reading: `NaN`, or a finite double, which is
exactly `mantissa * 2 ^ exponent`. -/
inductive JsNum where
  | nan
  | finite (mantissa : Int) (exponent : Int)
deriving DecidableEq, Repr

/-- JavaScript truthiness of a number: `0`, `-0` and `NaN` are falsy. -/
def JsNum.truthy : JsNum → Bool
  | .nan => false
  | .finite m _ => decide (m ≠ 0)

/-- JavaScript truthiness of a string or `null`: `null` and `''` are falsy. -/
def strTruthy : Option String → Bool
  | none => false
  | some s => decide (s ≠ "")

/-- An integral JavaScript number; `none` stands for `NaN` (and for `undefined`, which
arithmetic turns into `NaN`). -/
abbrev JsInt := Option Int

/-- JavaScript `a <= b`: false as soon as one side is `NaN`. -/
def jsLe : JsInt → JsInt → Bool
  | some x, some y => decide (x ≤ y)
  | _, _ => false

/-- JavaScript `a >= b`: false as soon as one side is `NaN`. -/
def jsGe (a b : JsInt) : Bool := jsLe b a

/-- JavaScript `a === b` on numbers: `NaN` equals nothing, itself included. -/
def jsStrictEq : JsInt → JsInt → Bool
  | some x, some y => decide (x = y)
  | _, _ => false

/-- JavaScript `hour * 60 + minute`. -/
def timeInMinutes (hour minute : JsInt) : JsInt :=
  match hour, minute with
  | some h, some m => some (h * 60 + m)
  | _, _ => none

/-! ## ECMAScript `Date` -/

/-- Milliseconds per day, `msPerDay` of ECMAScript. -/
def msPerDay : Int := 86400000

/-- Milliseconds per hour. -/
def msPerHour : Int := 3600000

/-- Milliseconds per minute. -/
def msPerMinute : Int := 60000

/-- A calendar day of the proleptic Gregorian calendar; `month` is 1-based. -/
structure Civil where
  year : Int
  month : Int
  day : Int
deriving DecidableEq, Repr

/-- Day number (days since 1970-01-01) of a calendar day: `MakeDay` of ECMAScript,
computed era by era (an era is 400 years, 146097 days, starting on 1 March). -/
def daysFromCivil (c : Civil) : Int :=
  let y := if c.month ≤ 2 then c.year - 1 else c.year
  let era := y / 400
  let yoe := y - era * 400
  let mp := if c.month > 2 then c.month - 3 else c.month + 9
  let doy := (153 * mp + 2) / 5 + c.day - 1
  let doe := yoe * 365 + yoe / 4 - yoe / 100 + doy
  era * 146097 + doe - 719468

/-- Calendar day of a day number: `YearFromTime`, `MonthFromTime` and `DateFromTime` of
ECMAScript, computed era by era. -/
def civilFromDays (z : Int) : Civil :=
  let z1 := z + 719468
  let era := z1 / 146097
  let doe := z1 - era * 146097
  let yoe := (doe - doe / 1460 + doe / 36524 - doe / 146096) / 365
  let doy := doe - (365 * yoe + yoe / 4 - yoe / 100)
  let mp := (5 * doy + 2) / 153
  let d := doy - (153 * mp + 2) / 5 + 1
  let m := if mp < 10 then mp + 3 else mp - 9
  { year := if m ≤ 2 then yoe + era * 400 + 1 else yoe + era * 400, month := m, day := d }

/-- Whether the year is a leap year. -/
def isLeapYear (y : Int) : Bool :=
  (y % 4 == 0 && y % 100 != 0) || y % 400 == 0

/-- Number of days of a month (1-based) of a year; 0 for a month out of range. -/
def daysInMonth (y m : Int) : Int :=
  if m = 2 then (if isLeapYear y then 29 else 28)
  else if m = 4 ∨ m = 6 ∨ m = 9 ∨ m = 11 then 30
  else if 1 ≤ m ∧ m ≤ 12 then 31
  else 0

/-- A `Date` object: its time value in milliseconds since the epoch, or `none` for an
invalid date (time value `NaN`). -/
abbrev JsDate := Option Int

/-- The viewer's time zone: minutes to add to UTC to get local time (the opposite of
`getTimezoneOffset()`), taken constant over the dates compared. -/
abbrev UtcOffset := Int

/-- The `LocalTime(t)` of ECMAScript: the time value shifted to the viewer's zone. -/
def localTime (off : UtcOffset) (t : Int) : Int := t + off * msPerMinute

/-- Method `getFullYear()`: year of the local calendar day; `NaN` on an invalid date. -/
def getFullYear (off : UtcOffset) (d : JsDate) : JsInt :=
  d.map fun t => (civilFromDays (localTime off t / msPerDay)).year

/-- Method `getMonth()`: 0-based month of the local calendar day; `NaN` on an invalid date. -/
def getMonth (off : UtcOffset) (d : JsDate) : JsInt :=
  d.map fun t => (civilFromDays (localTime off t / msPerDay)).month - 1

/-- Method `getDate()`: day of the month of the local calendar day; `NaN` on an invalid date. -/
def getDate (off : UtcOffset) (d : JsDate) : JsInt :=
  d.map fun t => (civilFromDays (localTime off t / msPerDay)).day

/-- Method `getHours()`: hour of the local time of day, `HourFromTime(LocalTime(t))`. -/
def getHours (off : UtcOffset) (d : JsDate) : JsInt :=
  d.map fun t => (localTime off t / msPerHour) % 24

/-- Method `getMinutes()`: minute of the local time of day, `MinFromTime(LocalTime(t))`. -/
def getMinutes (off : UtcOffset) (d : JsDate) : JsInt :=
  d.map fun t => (localTime off t / msPerMinute) % 60

/-- Method `setHours(0, 0, 0, 0)`: move the date to the midnight that starts its local day. -/
def setHoursZero (off : UtcOffset) (d : JsDate) : JsDate :=
  d.map fun t => (localTime off t / msPerDay) * msPerDay - off * msPerMinute

/-- The value of the `<input type="date">` control: the empty string when the field is
cleared, or a `'YYYY-MM-DD'` string. -/
inductive DateValue where
  | cleared
  | ymd (year month day : Nat)
deriving DecidableEq, Repr

/-- Constructor `new Date(selectedDate)`. ECMAScript reads a date-only ISO string as UTC midnight
of that day; the empty string (and a string that names no calendar day) gives an invalid
date. -/
def newDateOfValue : DateValue → JsDate
  | .cleared => none
  | .ymd y m d =>
    if 1 ≤ m ∧ m ≤ 12 ∧ 1 ≤ d ∧ (d : Int) ≤ daysInMonth y m then
      some (daysFromCivil ⟨y, m, d⟩ * msPerDay)
    else none

/-- The value of an `<input type="time">` control: the empty string when the field is
cleared, or an `'HH:MM'` string. -/
inductive TimeValue where
  | cleared
  | hm (hour minute : Nat)
deriving DecidableEq, Repr

/-- The destructuring `[h, m] = value.split(':').map(Number)`: `'HH:MM'` gives both
numbers; `''` splits into `['']`, so `h` is `Number('') = 0` and `m` is `undefined`. -/
def splitNumber : TimeValue → JsInt × JsInt
  | .cleared => (some 0, none)
  | .hm h m => (some (h : Int), some (m : Int))

/-! ## Effect 5: the day and time-of-day filter -/

/-- A document of the `trackedLocations` collection as the snapshot listener stores it
in `locationHistory`: `{ id: doc.id, ...doc.data() }`. The `timestamp` is the Firestore
timestamp as `toDate()` reads it (milliseconds since the epoch), or `null`. -/
structure LocationPoint where
  id : String
  timestamp : Option Int
  latitude : JsNum
  longitude : JsNum
  accuracy : Option JsNum
  altitude : Option JsNum
  trackerUserId : String
deriving DecidableEq, Repr

/-- The three filter inputs held in component state. -/
structure TimeWindow where
  selectedDate : DateValue
  displayStartTime : TimeValue
  displayEndTime : TimeValue
deriving DecidableEq, Repr

/-- Lines 169-170: `currentDay = new Date(selectedDate); currentDay.setHours(0,0,0,0)`. -/
def currentDay (off : UtcOffset) (selectedDate : DateValue) : JsDate :=
  setHoursZero off (newDateOfValue selectedDate)

/-- Lines 176-178: the three-way comparison of local year, month and day. -/
def isSameDay (off : UtcOffset) (pointDate currentDay : JsDate) : Bool :=
  jsStrictEq (getFullYear off pointDate) (getFullYear off currentDay) &&
  jsStrictEq (getMonth off pointDate) (getMonth off currentDay) &&
  jsStrictEq (getDate off pointDate) (getDate off currentDay)

/-- Lines 185-188: `pointHour * 60 + pointMinute` in the viewer's local time. -/
def pointTimeInMinutes (off : UtcOffset) (pointDate : JsDate) : JsInt :=
  timeInMinutes (getHours off pointDate) (getMinutes off pointDate)

/-- Minute of the local day (`hour * 60 + minute`) at which a time value falls: the
number `pointTimeInMinutes` holds for a valid date. -/
def localMinuteOfDay (off : UtcOffset) (t : Int) : Int :=
  (localTime off t / msPerHour) % 24 * 60 + (localTime off t / msPerMinute) % 60

/-- Lines 182 and 189: minutes of the start control. -/
def startTimeInMinutes (w : TimeWindow) : JsInt :=
  timeInMinutes (splitNumber w.displayStartTime).1 (splitNumber w.displayStartTime).2

/-- Lines 183 and 190: minutes of the end control. -/
def endTimeInMinutes (w : TimeWindow) : JsInt :=
  timeInMinutes (splitNumber w.displayEndTime).1 (splitNumber w.displayEndTime).2

/-- Lines 172-197: the predicate passed to `locationHistory.filter`. -/
def keepPoint (off : UtcOffset) (w : TimeWindow) (point : LocationPoint) : Bool :=
  match point.timestamp with
  | none => false
  | some t =>
    let pointDate : JsDate := some t
    if !isSameDay off pointDate (currentDay off w.selectedDate) then false
    else if jsLe (startTimeInMinutes w) (endTimeInMinutes w) then
      jsGe (pointTimeInMinutes off pointDate) (startTimeInMinutes w) &&
        jsLe (pointTimeInMinutes off pointDate) (endTimeInMinutes w)
    else
      jsGe (pointTimeInMinutes off pointDate) (startTimeInMinutes w) ||
        jsLe (pointTimeInMinutes off pointDate) (endTimeInMinutes w)

/-- Line 172: `filteredPoints = locationHistory.filter(...)`. -/
def filteredPoints (off : UtcOffset) (w : TimeWindow) (locationHistory : List LocationPoint) :
    List LocationPoint :=
  locationHistory.filter (keepPoint off w)

/-- The local calendar day of a time value, month 1-based, as a viewer at the given
offset reads it. -/
def localCivil (off : UtcOffset) (t : Int) : Civil :=
  civilFromDays (localTime off t / msPerDay)

/-- The history is ascending by timestamp (the order of the store query), records
without a timestamp counting as earliest. -/
def ascendingByTimestamp (h : List LocationPoint) : Prop :=
  h.Pairwise fun a b =>
    match a.timestamp, b.timestamp with
    | some x, some y => x ≤ y
    | none, _ => True
    | some _, none => False

/-! ## Effect 5: the map update -/

/-- A Leaflet `[lat, lng]` pair. -/
structure LatLng where
  lat : JsNum
  lng : JsNum
deriving DecidableEq, Repr

/-- Leaflet's `new LatLng(lat, lng)`, which `L.polyline` and `L.marker` run on every
point they are given, accepts the pair only when `isNaN` holds of neither coordinate;
otherwise it throws `Invalid LatLng object`. -/
def LatLng.isValid (p : LatLng) : Bool :=
  match p.lat, p.lng with
  | .finite _ _, .finite _ _ => true
  | _, _ => false

/-- What a Leaflet layer is: the tile layer added when the map is created, a polyline
through points, or a marker whose popup reads `Last known location: ` followed by
`toLocaleTimeString()` of the given timestamp. -/
inductive LayerKind where
  | tile
  | polyline (latLngs : List LatLng)
  | marker (latLng : LatLng) (popupTime : Option Int)
deriving DecidableEq, Repr

/-- A layer object; `id` is its identity (Leaflet stamps every layer with a fresh
number). -/
structure Layer where
  id : Nat
  kind : LayerKind
deriving DecidableEq, Repr

/-- The view of the map: set by `setView(center, zoom)` or fitted to the bounds of a
polyline by `fitBounds(polyline.getBounds())`. -/
inductive MapView where
  | setView (lat lng : Int) (zoom : Nat)
  | fitBounds (latLngs : List LatLng)
deriving DecidableEq, Repr

/-- The Leaflet map object: the layers on it, its view, and the next fresh layer id. -/
structure LeafletMap where
  layers : List Layer
  view : MapView
  nextLayerId : Nat
deriving DecidableEq, Repr

/-- The three refs of the component that effect 5 reads and writes. -/
structure MapRefs where
  mapRef : Option LeafletMap
  polylineRef : Option Layer
  markerRef : Option Layer
deriving DecidableEq, Repr

/-- An error thrown out of effect 5: Leaflet's `Invalid LatLng object`, with the point
it was thrown for. -/
inductive EffectError where
  | invalidLatLng (latLng : LatLng)
deriving DecidableEq, Repr

/-- How a run of effect 5 ends: the refs (and the map they hold) as the run leaves them,
and the error it threw, if any. A throw does not undo what the effect did before it. -/
structure EffectResult where
  refs : MapRefs
  thrown : Option EffectError
deriving DecidableEq, Repr

/-- Method `map.removeLayer(layer)`: takes the layer off the map; nothing happens when it is
not on the map. -/
def LeafletMap.removeLayer (map : LeafletMap) (layer : Layer) : LeafletMap :=
  { map with layers := map.layers.filter fun l => l.id != layer.id }

/-- Either `L.polyline(...)` or `L.marker(...)`, followed by `.addTo(map)`: a fresh layer is
created and put on the map. -/
def LeafletMap.addNew (map : LeafletMap) (kind : LayerKind) : Layer × LeafletMap :=
  let layer : Layer := { id := map.nextLayerId, kind := kind }
  (layer, { map with layers := map.layers ++ [layer], nextLayerId := map.nextLayerId + 1 })

/-- The map as effect 3 creates it: `L.map('map').setView([0, 0], 2)` with the tile
layer added. -/
def initialMap : LeafletMap :=
  { layers := [{ id := 0, kind := .tile }], view := .setView 0 0 2, nextLayerId := 1 }

/-- Lines 165-219: effect 5, run with the current history, filter inputs and refs.
`L.polyline(latLngs)` (line 209) converts every point before anything is drawn and throws
at the first one with a `NaN` coordinate; the effect then ends there, after lines 201-206
have taken the old layers off the map, with the refs and the view untouched. Once the
polyline exists every point is valid, so `L.marker(lastPoint)` (line 213) does not
throw. -/
def updateMap (isLeafletLoaded : Bool) (off : UtcOffset) (w : TimeWindow)
    (locationHistory : List LocationPoint) (refs : MapRefs) : EffectResult :=
  match refs.mapRef with
  | none => { refs := refs, thrown := none }
  | some map =>
    if locationHistory.length = 0 ∨ isLeafletLoaded = false then
      { refs := refs, thrown := none }
    else
      let filtered := filteredPoints off w locationHistory
      let latLngs := filtered.map fun point => LatLng.mk point.latitude point.longitude
      let map1 := match refs.polylineRef with
        | some l => map.removeLayer l
        | none => map
      let map2 := match refs.markerRef with
        | some l => map1.removeLayer l
        | none => map1
      if latLngs.length > 0 then
        match latLngs.find? (fun p => !p.isValid) with
        | some bad =>
          { refs := { refs with mapRef := some map2 }, thrown := some (.invalidLatLng bad) }
        | none =>
          let (polyline, map3) := map2.addNew (.polyline latLngs)
          let map4 := { map3 with view := .fitBounds latLngs }
          match latLngs.getLast?, filtered.getLast? with
          | some lastPoint, some lastRecord =>
            let (marker, map5) := map4.addNew (.marker lastPoint lastRecord.timestamp)
            { refs := ⟨some map5, some polyline, some marker⟩
              thrown := none }
          | _, _ =>
            { refs := { refs with mapRef := some map4, polylineRef := some polyline }
              thrown := none }
      else
        { refs := { refs with mapRef := some { map2 with view := .setView 0 0 2 } }
          thrown := none }

/-! ## The tracking controller -/

/-- The `coords` of a geolocation position, restricted to the four fields the code
reads; `none` is a field the source did not report (`null` or `undefined`). -/
structure Coords where
  latitude : JsNum
  longitude : JsNum
  accuracy : Option JsNum
  altitude : Option JsNum
deriving DecidableEq, Repr

/-- A geolocation position as passed to a success callback. -/
structure Position where
  coords : Coords
deriving DecidableEq, Repr

/-- The object `locationData` handed to `addDoc` (lines 289-297). Its `timestamp` field
is the `serverTimestamp()` sentinel, which the store replaces, and is left out. -/
structure LocationData where
  latitude : JsNum
  longitude : JsNum
  accuracy : Option JsNum
  altitude : Option JsNum
  trackerUserId : Option String
deriving DecidableEq, Repr

/-- JavaScript `value || null` on an optional number. -/
def orNull : Option JsNum → Option JsNum
  | some v => if v.truthy then some v else none
  | none => none

/-- Lines 288-297: the record `saveLocation` builds from a position. -/
def buildLocationData (userId : Option String) (position : Position) : LocationData :=
  { latitude := position.coords.latitude
    longitude := position.coords.longitude
    accuracy := orNull position.coords.accuracy
    altitude := orNull position.coords.altitude
    trackerUserId := userId }

/-- An interval timer created by `setInterval`, with the `userId` its callback closes
over. Timer handles are positive integers. -/
structure Timer where
  id : Nat
  userId : Option String
deriving DecidableEq, Repr

/-- The controller state: the component state and ref that the tracking code touches,
and the part of the platform it drives (interval timers, position requests that have
not called back yet, the documents appended to the public collection). A pending
request carries the `userId` its callbacks close over. -/
structure AppState where
  userId : Option String
  geolocation : Bool
  isTracking : Bool
  trackingStatus : String
  locationError : String
  trackingIntervalRef : Option Nat
  timers : List Timer
  nextTimerId : Nat
  pendingInitial : List (Option String)
  pendingTick : List (Option String)
  store : List LocationData
deriving DecidableEq, Repr

/-- The state of a freshly mounted component. -/
def initialState (userId : Option String) (geolocation : Bool) : AppState :=
  { userId := userId
    geolocation := geolocation
    isTracking := false
    trackingStatus := "Idle"
    locationError := ""
    trackingIntervalRef := none
    timers := []
    nextTimerId := 1
    pendingInitial := []
    pendingTick := []
    store := [] }

/-- JavaScript `text.includes(pattern)`. -/
def jsIncludes (text pattern : String) : Bool :=
  text.data.tails.any fun rest => pattern.data.isPrefixOf rest

/-- The message shown when the environment disables positioning. -/
def policyMessage : String :=
  "Geolocation is disabled in this environment due to browser/iframe permissions policy. Real-time tracking is not possible here."

/-- Lines 282-308: `saveLocation`, called with the `userId` of the closure. The append
either succeeds, adding the record to the collection, or fails, in which case the
`catch` sets the error message. -/
def saveLocation (userId : Option String) (position : Position) (appendOk : Bool)
    (s : AppState) : AppState :=
  if !strTruthy userId then s
  else if appendOk then { s with store := s.store ++ [buildLocationData userId position] }
  else { s with locationError := "Failed to save location data." }

/-- Lines 223-236: `startTracking` up to the one-shot position request. -/
def startTracking (s : AppState) : AppState :=
  if !strTruthy s.userId then
    { s with locationError := "Please log in to start tracking." }
  else if !s.geolocation then
    { s with locationError := "Geolocation is not supported by your browser." }
  else
    { s with
      trackingStatus := "Requesting permission..."
      locationError := ""
      pendingInitial := s.pendingInitial ++ [s.userId] }

/-- Lines 238-257: the success callback of the one-shot request. -/
def onInitialSuccess (userId : Option String) (position : Position) (appendOk : Bool)
    (s : AppState) : AppState :=
  let s1 := { s with trackingStatus := "Tracking...", isTracking := true }
  let s2 := saveLocation userId position appendOk s1
  { s2 with
    timers := s2.timers ++ [{ id := s2.nextTimerId, userId := userId }]
    nextTimerId := s2.nextTimerId + 1
    trackingIntervalRef := some s2.nextTimerId }

/-- Lines 258-267: the error callback of the one-shot request. -/
def onInitialFailure (message : String) (s : AppState) : AppState :=
  { s with
    locationError :=
      if jsIncludes message "permissions policy" then policyMessage
      else "Geolocation error: " ++ message ++ ". Please enable location services."
    trackingStatus := "Idle"
    isTracking := false }

/-- Lines 243-256: the interval callback issues a position request. -/
def onTimerFire (timer : Timer) (s : AppState) : AppState :=
  { s with pendingTick := s.pendingTick ++ [timer.userId] }

/-- Line 245: the success callback of a tick's request. -/
def onTickSuccess (userId : Option String) (position : Position) (appendOk : Bool)
    (s : AppState) : AppState :=
  saveLocation userId position appendOk s

/-- Lines 246-253: the error callback of a tick's request. -/
def onTickFailure (message : String) (s : AppState) : AppState :=
  { s with
    locationError :=
      if jsIncludes message "permissions policy" then policyMessage
      else "Geolocation error: " ++ message }

/-- Lines 272-280: `stopTracking`. `clearInterval` removes the timer with the held
handle from the active timers. -/
def stopTracking (s : AppState) : AppState :=
  let s1 : AppState := match s.trackingIntervalRef with
    | some id =>
      { s with timers := s.timers.filter (fun t => t.id != id), trackingIntervalRef := none }
    | none => s
  { s1 with isTracking := false, trackingStatus := "Idle", locationError := "" }

/-- What can happen to the controller: the two operator actions, a change of the
authenticated identity, and the platform calling back. A callback names the pending
request it answers by its position in the pending list, a timer fire names the timer
by its handle. -/
inductive Event where
  | startTracking
  | stopTracking
  | setUserId (userId : Option String)
  | initialSuccess (i : Nat) (position : Position) (appendOk : Bool)
  | initialFailure (i : Nat) (message : String)
  | timerFire (id : Nat)
  | tickSuccess (i : Nat) (position : Position) (appendOk : Bool)
  | tickFailure (i : Nat) (message : String)
deriving DecidableEq, Repr

/-- One event. An event that is not enabled (no such pending request, no such active
timer) leaves the state as it is. -/
def step (s : AppState) : Event → AppState
  | .startTracking => startTracking s
  | .stopTracking => stopTracking s
  | .setUserId u => { s with userId := u }
  | .initialSuccess i position appendOk =>
    match s.pendingInitial.get? i with
    | some u =>
      onInitialSuccess u position appendOk { s with pendingInitial := s.pendingInitial.eraseIdx i }
    | none => s
  | .initialFailure i message =>
    match s.pendingInitial.get? i with
    | some _ => onInitialFailure message { s with pendingInitial := s.pendingInitial.eraseIdx i }
    | none => s
  | .timerFire id =>
    match s.timers.find? (fun t => t.id == id) with
    | some timer => onTimerFire timer s
    | none => s
  | .tickSuccess i position appendOk =>
    match s.pendingTick.get? i with
    | some u =>
      onTickSuccess u position appendOk { s with pendingTick := s.pendingTick.eraseIdx i }
    | none => s
  | .tickFailure i message =>
    match s.pendingTick.get? i with
    | some _ => onTickFailure message { s with pendingTick := s.pendingTick.eraseIdx i }
    | none => s

/-- A sequence of events, in order. -/
def run (s : AppState) (events : List Event) : AppState :=
  events.foldl step s

/-- A state the controller can be in: reached from a fresh component by some events. -/
def Reachable (s : AppState) : Prop :=
  ∃ (userId : Option String) (geolocation : Bool) (events : List Event),
    s = run (initialState userId geolocation) events

/-- The events the platform raises on its own: position callbacks and timer fires. -/
def Event.isCallback : Event → Bool
  | .initialSuccess _ _ _ => true
  | .initialFailure _ _ => true
  | .timerFire _ => true
  | .tickSuccess _ _ _ => true
  | .tickFailure _ _ => true
  | _ => false

/-- A stopped controller with nothing left that could restart it: no active timer, no
held handle, status `Idle`, and no one-shot request outstanding. -/
def Quiet (s : AppState) : Prop :=
  s.timers = [] ∧ s.trackingIntervalRef = none ∧ s.trackingStatus = "Idle" ∧
    s.isTracking = false ∧ s.pendingInitial = []

/-! ## Sample data

Times are milliseconds since the epoch; 1717200000000 is 2024-06-01T00:00:00Z. -/

/-- A history record with the given id and timestamp, at latitude 48, longitude -122. -/
def pointAt (id : String) (t : Int) : LocationPoint :=
  { id := id, timestamp := some t, latitude := .finite 3 4, longitude := .finite (-61) 1,
    accuracy := none, altitude := none, trackerUserId := "operator" }

/-- The default window of the page, 19:00 to 21:00, on 2024-06-01. -/
def evening : TimeWindow := ⟨.ymd 2024 6 1, .hm 19 0, .hm 21 0⟩

/-- An overnight window, 22:00 to 02:00, on 2024-06-01. -/
def overnight : TimeWindow := ⟨.ymd 2024 6 1, .hm 22 0, .hm 2 0⟩

/-- A record at 2024-06-01T20:30Z. -/
def utc2030 : LocationPoint := pointAt "a" 1717273800000

/-- A record at 2024-06-01T08:00Z. -/
def utc0800 : LocationPoint := pointAt "b" 1717228800000

/-- A record at 2024-06-01T19:00Z. -/
def utc1900 : LocationPoint := pointAt "e" 1717268400000

/-- A record at 2024-06-01T21:00Z. -/
def utc2100 : LocationPoint := pointAt "f" 1717275600000

/-- A record at 2024-06-01T21:01Z. -/
def utc2101 : LocationPoint := pointAt "g" 1717275660000

/-- A record at 2024-06-01T23:00Z. -/
def utc2300 : LocationPoint := pointAt "h" 1717282800000

/-- A record at 2024-06-01T01:00Z. -/
def utc0100 : LocationPoint := pointAt "i" 1717203600000

/-- A record at 2024-06-01T12:00Z. -/
def utc1200 : LocationPoint := pointAt "j" 1717243200000

/-- A record at 2024-06-01T06:00Z, which is 23:00 on 2024-05-31 seven hours west of UTC. -/
def pacificMay31 : LocationPoint := pointAt "c" 1717221600000

/-- A record at 2024-06-02T06:00Z, which is 23:00 on 2024-06-01 seven hours west of UTC. -/
def pacificJune1 : LocationPoint := pointAt "d" 1717308000000

/-- A position with every field reported: accuracy 10 m, altitude 50 m. -/
def samplePosition : Position :=
  ⟨⟨.finite 3 4, .finite (-61) 1, some (.finite 5 1), some (.finite 25 1)⟩⟩

/-- A position reported at sea level: accuracy 10 m, altitude 0 m. -/
def seaLevelPosition : Position :=
  ⟨⟨.finite 3 4, .finite (-61) 1, some (.finite 5 1), some (.finite 0 0)⟩⟩

/-- A fresh component with an operator signed in and positioning available. -/
def operatorState : AppState := initialState (some "operator") true

/-- The operator is tracking and the first tick has issued its request, which has not
called back yet. -/
def tickInFlight : AppState :=
  run operatorState [.startTracking, .initialSuccess 0 samplePosition true, .timerFire 1]

/-- The operator pressed start and the one-shot request has not called back yet. -/
def requestingPermission : AppState :=
  run operatorState [.startTracking]

/-- The refs after a first render that drew the 20:30 record on a fresh map. -/
def drawnRefs : MapRefs :=
  (updateMap true 0 evening [utc2030] ⟨some initialMap, none, none⟩).refs

/-! ## Sequences of renders -/

/-- The values effect 5 reads when it runs: the load flag, the viewer's offset, the
filter inputs and the history. -/
structure RenderInput where
  isLeafletLoaded : Bool
  off : UtcOffset
  window : TimeWindow
  locationHistory : List LocationPoint
deriving DecidableEq, Repr

/-- The refs once effect 3 has created the map and before effect 5 has drawn anything. -/
def initialRefs : MapRefs :=
  { mapRef := some initialMap, polylineRef := none, markerRef := none }

/-- Effect 5 run once for each input, in order, up to the first run that throws: an
error thrown out of an effect makes React unmount the component, so no later run
follows it. -/
def renders (refs : MapRefs) : List RenderInput → EffectResult
  | [] => { refs := refs, thrown := none }
  | i :: rest =>
    match updateMap i.isLeafletLoaded i.off i.window i.locationHistory refs with
    | { refs := refs1, thrown := none } => renders refs1 rest
    | result => result

/-- The tile layer that effect 3 puts on the map. -/
def tileLayer : Layer := { id := 0, kind := .tile }

/-- What every sequence of renders keeps true of the refs: there is a map; the layers
on it are the tile layer alone, or the tile layer followed by the polyline and the
marker held in the refs; every layer id in use is below the next fresh id, and no held
layer has the id of the tile layer. -/
def RenderInv (refs : MapRefs) : Prop :=
  ∃ map, refs.mapRef = some map ∧ 0 < map.nextLayerId ∧
    (∀ p, refs.polylineRef = some p → p.id ≠ 0 ∧ p.id < map.nextLayerId) ∧
    (∀ m, refs.markerRef = some m → m.id ≠ 0 ∧ m.id < map.nextLayerId) ∧
    (map.layers = [tileLayer] ∨
      ∃ p m, refs.polylineRef = some p ∧ refs.markerRef = some m ∧
        map.layers = [tileLayer, p, m])

/-- A record at 2024-06-01T20:00Z whose stored latitude is `NaN`. -/
def nanPoint : LocationPoint :=
  { id := "n", timestamp := some 1717272000000, latitude := .nan, longitude := .finite (-61) 1,
    accuracy := none, altitude := none, trackerUserId := "operator" }

/-- A record whose server timestamp is still pending. -/
def pendingPoint : LocationPoint :=
  { id := "p", timestamp := none, latitude := .finite 3 4, longitude := .finite (-61) 1,
    accuracy := none, altitude := none, trackerUserId := "operator" }

/-- A first render input: the 20:30 record under the evening window. -/
def firstRender : RenderInput :=
  { isLeafletLoaded := true, off := 0, window := evening, locationHistory := [utc2030] }

/-! ## The filter: time-of-day window -/

/-- The minutes of the point, for a record with a timestamp. -/
theorem pointTimeInMinutes_some (off : UtcOffset) (t : Int) :
    pointTimeInMinutes off (some t) = some (localMinuteOfDay off t) := rfl

/-- The minutes of a start control that holds a time. -/
theorem startTimeInMinutes_hm (d : DateValue) (sh sm : Nat) (e : TimeValue) :
    startTimeInMinutes ⟨d, .hm sh sm, e⟩ = some ((sh : Int) * 60 + sm) := rfl

/-- The minutes of an end control that holds a time. -/
theorem endTimeInMinutes_hm (d : DateValue) (s : TimeValue) (eh em : Nat) :
    endTimeInMinutes ⟨d, s, .hm eh em⟩ = some ((eh : Int) * 60 + em) := rfl

/-- The filter predicate on a record with a timestamp that passes the day test, for a
window whose two controls hold times: the two branches of lines 192-196. -/
theorem keepPoint_of_sameDay (off : UtcOffset) (date : DateValue) (sh sm eh em : Nat)
    (r : LocationPoint) (t : Int) (ht : r.timestamp = some t)
    (hday : isSameDay off (some t) (currentDay off date) = true) :
    keepPoint off ⟨date, .hm sh sm, .hm eh em⟩ r =
      if (sh : Int) * 60 + sm ≤ (eh : Int) * 60 + em then
        decide ((sh : Int) * 60 + sm ≤ localMinuteOfDay off t) &&
          decide (localMinuteOfDay off t ≤ (eh : Int) * 60 + em)
      else
        decide ((sh : Int) * 60 + sm ≤ localMinuteOfDay off t) ||
          decide (localMinuteOfDay off t ≤ (eh : Int) * 60 + em) := by
  unfold keepPoint
  rw [ht]
  simp only [hday, pointTimeInMinutes_some, startTimeInMinutes_hm, endTimeInMinutes_hm, jsLe,
    jsGe]
  by_cases hw : (sh : Int) * 60 + sm ≤ (eh : Int) * 60 + em <;> simp [hw]

/-- C1: with a same-day window (start minutes at most end minutes), a record of the
history that has a timestamp and passes the day test is kept by the filter exactly when
its local minute of day lies between the start and end minutes, both bounds included;
when start and end coincide, exactly the records at that minute are kept. -/
theorem sameDay_window_inclusive (off : UtcOffset) (h : List LocationPoint) (date : DateValue)
    (sh sm eh em : Nat) (r : LocationPoint) (t : Int)
    (hr : r ∈ h) (ht : r.timestamp = some t)
    (hday : isSameDay off (some t) (currentDay off date) = true)
    (hwin : (sh : Int) * 60 + sm ≤ (eh : Int) * 60 + em) :
    (r ∈ filteredPoints off ⟨date, .hm sh sm, .hm eh em⟩ h ↔
      ((sh : Int) * 60 + sm ≤ localMinuteOfDay off t ∧
        localMinuteOfDay off t ≤ (eh : Int) * 60 + em)) ∧
    ((sh : Int) * 60 + sm = (eh : Int) * 60 + em →
      (r ∈ filteredPoints off ⟨date, .hm sh sm, .hm eh em⟩ h ↔
        localMinuteOfDay off t = (sh : Int) * 60 + sm)) := by
  have key : r ∈ filteredPoints off ⟨date, .hm sh sm, .hm eh em⟩ h ↔
      ((sh : Int) * 60 + sm ≤ localMinuteOfDay off t ∧
        localMinuteOfDay off t ≤ (eh : Int) * 60 + em) := by
    simp [filteredPoints, List.mem_filter, hr,
      keepPoint_of_sameDay off date sh sm eh em r t ht hday, hwin]
  refine ⟨key, fun heq => key.trans ?_⟩
  constructor
  · rintro ⟨h1, h2⟩; omega
  · intro h1; omega

/-- Witness for C1: the scenario of the specification (a 20:30 and an 08:00 record, window
19:00 to 21:00, viewer at UTC) keeps only the 20:30 record, and records at exactly 19:00
and 21:00 are kept while 21:01 is not. -/
theorem sameDay_window_inclusive_witness :
    utc2030 ∈ [utc2030, utc0800] ∧
    isSameDay 0 (some 1717273800000) (currentDay 0 (.ymd 2024 6 1)) = true ∧
    filteredPoints 0 evening [utc2030, utc0800] = [utc2030] ∧
    filteredPoints 0 evening [utc1900, utc2100, utc2101] = [utc1900, utc2100] ∧
    (utc2030 ∈ filteredPoints 0 ⟨.ymd 2024 6 1, .hm 19 0, .hm 21 0⟩ [utc2030, utc0800] ↔
      (((19 : Nat) : Int) * 60 + ((0 : Nat) : Int) ≤ localMinuteOfDay 0 1717273800000 ∧
        localMinuteOfDay 0 1717273800000 ≤ ((21 : Nat) : Int) * 60 + ((0 : Nat) : Int))) :=
  ⟨by decide, by decide, by decide, by decide,
    (sameDay_window_inclusive 0 [utc2030, utc0800] (.ymd 2024 6 1) 19 0 21 0 utc2030
      1717273800000 (by decide) rfl (by decide) (by decide)).1⟩

/-- C2: with an overnight window (start minutes above end minutes), a record of the
history that has a timestamp and passes the day test is kept exactly when its local
minute of day is at least the start minutes or at most the end minutes; the records
dropped are exactly those strictly between end and start. -/
theorem overnight_window (off : UtcOffset) (h : List LocationPoint) (date : DateValue)
    (sh sm eh em : Nat) (r : LocationPoint) (t : Int)
    (hr : r ∈ h) (ht : r.timestamp = some t)
    (hday : isSameDay off (some t) (currentDay off date) = true)
    (hwin : (sh : Int) * 60 + sm > (eh : Int) * 60 + em) :
    (r ∈ filteredPoints off ⟨date, .hm sh sm, .hm eh em⟩ h ↔
      (localMinuteOfDay off t ≥ (sh : Int) * 60 + sm ∨
        localMinuteOfDay off t ≤ (eh : Int) * 60 + em)) ∧
    (r ∉ filteredPoints off ⟨date, .hm sh sm, .hm eh em⟩ h ↔
      ((eh : Int) * 60 + em < localMinuteOfDay off t ∧
        localMinuteOfDay off t < (sh : Int) * 60 + sm)) := by
  have hnot : ¬ ((sh : Int) * 60 + sm ≤ (eh : Int) * 60 + em) := by omega
  have key : r ∈ filteredPoints off ⟨date, .hm sh sm, .hm eh em⟩ h ↔
      (localMinuteOfDay off t ≥ (sh : Int) * 60 + sm ∨
        localMinuteOfDay off t ≤ (eh : Int) * 60 + em) := by
    simp [filteredPoints, List.mem_filter, hr,
      keepPoint_of_sameDay off date sh sm eh em r t ht hday, hnot]
  refine ⟨key, ?_⟩
  rw [key]
  constructor
  · intro h1; omega
  · intro h1; omega

/-- Witness for C2: window 22:00 to 02:00 on 2024-06-01, viewer at UTC; of the records at
23:00, 01:00 and 12:00 of that day the first two are kept and the noon record is
dropped. -/
theorem overnight_window_witness :
    utc1200 ∈ [utc2300, utc0100, utc1200] ∧
    isSameDay 0 (some 1717243200000) (currentDay 0 (.ymd 2024 6 1)) = true ∧
    filteredPoints 0 overnight [utc2300, utc0100, utc1200] = [utc2300, utc0100] ∧
    (utc1200 ∉ filteredPoints 0 ⟨.ymd 2024 6 1, .hm 22 0, .hm 2 0⟩ [utc2300, utc0100, utc1200] ↔
      (((2 : Nat) : Int) * 60 + ((0 : Nat) : Int) < localMinuteOfDay 0 1717243200000 ∧
        localMinuteOfDay 0 1717243200000 < ((22 : Nat) : Int) * 60 + ((0 : Nat) : Int))) :=
  ⟨by decide, by decide, by decide,
    (overnight_window 0 [utc2300, utc0100, utc1200] (.ymd 2024 6 1) 22 0 2 0 utc1200
      1717243200000 (by decide) rfl (by decide) (by decide)).2⟩

/-! ## The filter: the day test -/

/-- C3 (the code at the failing input): selected date 2024-06-01, overnight window 22:00
to 02:00, viewer seven hours west of UTC. The filter returns the record whose local day
is 2024-05-31 and drops the record at 23:00 local time on 2024-06-01: `new Date` reads
the date string as UTC midnight, which is still the previous day for this viewer. -/
theorem datePin_west_of_utc :
    filteredPoints (-420) overnight [pacificMay31, pacificJune1] = [pacificMay31] ∧
    localCivil (-420) 1717221600000 = ⟨2024, 5, 31⟩ ∧
    localCivil (-420) 1717308000000 = ⟨2024, 6, 1⟩ ∧
    localMinuteOfDay (-420) 1717308000000 = 23 * 60 ∧
    getDate (-420) (currentDay (-420) (.ymd 2024 6 1)) = some 31 := by
  decide

/-! ## The filter: order and idempotence -/

/-- C4: the filter output is a subsequence of the history (only records of the history,
each at most as often, in the same relative order), so an ascending history gives an
ascending output. -/
theorem filteredPoints_subsequence (off : UtcOffset) (w : TimeWindow) (h : List LocationPoint) :
    (filteredPoints off w h).Sublist h ∧
    (∀ r, (filteredPoints off w h).count r ≤ h.count r) ∧
    (ascendingByTimestamp h → ascendingByTimestamp (filteredPoints off w h)) := by
  have hs : (filteredPoints off w h).Sublist h := List.filter_sublist h
  exact ⟨hs, fun r => hs.count_le r, fun ha => List.Pairwise.sublist hs ha⟩

/-- Witness for C4: an ascending two-record history and its filtered output. -/
theorem filteredPoints_subsequence_witness :
    ascendingByTimestamp [utc0800, utc2030] ∧
    filteredPoints 0 evening [utc0800, utc2030] = [utc2030] ∧
    ascendingByTimestamp (filteredPoints 0 evening [utc0800, utc2030]) := by
  have ha : ascendingByTimestamp [utc0800, utc2030] := by
    simp [ascendingByTimestamp, utc0800, utc2030, pointAt]
  exact ⟨ha, by decide, (filteredPoints_subsequence 0 evening [utc0800, utc2030]).2.2 ha⟩

/-- C5: filtering the filter output again with the same window changes nothing. -/
theorem filteredPoints_idempotent (off : UtcOffset) (w : TimeWindow) (h : List LocationPoint) :
    filteredPoints off w (filteredPoints off w h) = filteredPoints off w h := by
  simp [filteredPoints, List.filter_filter]

/-! ## The tracking controller: what remains after `stopTracking` -/

/-- What `saveLocation` leaves alone: it touches only the store (at most one record
appended) and the error message. -/
theorem saveLocation_frame (u : Option String) (p : Position) (ok : Bool) (s : AppState) :
    (saveLocation u p ok s).timers = s.timers ∧
    (saveLocation u p ok s).trackingIntervalRef = s.trackingIntervalRef ∧
    (saveLocation u p ok s).trackingStatus = s.trackingStatus ∧
    (saveLocation u p ok s).isTracking = s.isTracking ∧
    (saveLocation u p ok s).pendingInitial = s.pendingInitial ∧
    (saveLocation u p ok s).pendingTick = s.pendingTick ∧
    (saveLocation u p ok s).nextTimerId = s.nextTimerId ∧
    ∃ extra, (saveLocation u p ok s).store = s.store ++ extra ∧ extra.length ≤ 1 := by
  unfold saveLocation
  split
  · exact ⟨rfl, rfl, rfl, rfl, rfl, rfl, rfl, [], by simp, by simp⟩
  · split
    · exact ⟨rfl, rfl, rfl, rfl, rfl, rfl, rfl, [_], rfl, by simp⟩
    · exact ⟨rfl, rfl, rfl, rfl, rfl, rfl, rfl, [], by simp, by simp⟩

/-- A platform event in a quiet state keeps it quiet; the store only grows, and by no
more than the pending tick requests shrink. -/
theorem step_quiet (s : AppState) (e : Event) (hq : Quiet s) (he : e.isCallback = true) :
    Quiet (step s e) ∧
      ∃ extra, (step s e).store = s.store ++ extra ∧
        extra.length + (step s e).pendingTick.length ≤ s.pendingTick.length := by
  obtain ⟨h1, h2, h3, h4, h5⟩ := hq
  have same : Quiet s ∧ ∃ extra, s.store = s.store ++ extra ∧
      extra.length + s.pendingTick.length ≤ s.pendingTick.length :=
    ⟨⟨h1, h2, h3, h4, h5⟩, [], by simp, by simp⟩
  cases e with
  | startTracking => simp [Event.isCallback] at he
  | stopTracking => simp [Event.isCallback] at he
  | setUserId u => simp [Event.isCallback] at he
  | initialSuccess i p ok => simpa [step, h5] using same
  | initialFailure i m => simpa [step, h5] using same
  | timerFire id => simpa [step, h1] using same
  | tickSuccess i p ok =>
    simp only [step]
    cases hg : s.pendingTick.get? i with
    | none => exact same
    | some u =>
      have hi : i < s.pendingTick.length := by
        by_contra hlt
        rw [List.get?_eq_none.mpr (by omega)] at hg
        cases hg
      obtain ⟨f1, f2, f3, f4, f5, f6, _, extra, f8, f9⟩ :=
        saveLocation_frame u p ok { s with pendingTick := s.pendingTick.eraseIdx i }
      refine ⟨⟨?_, ?_, ?_, ?_, ?_⟩, extra, ?_, ?_⟩
      · simpa [onTickSuccess] using f1.trans h1
      · simpa [onTickSuccess] using f2.trans h2
      · simpa [onTickSuccess] using f3.trans h3
      · simpa [onTickSuccess] using f4.trans h4
      · simpa [onTickSuccess] using f5.trans h5
      · simpa [onTickSuccess] using f8
      · have hl : (s.pendingTick.eraseIdx i).length = s.pendingTick.length - 1 := by
          rw [List.length_eraseIdx, if_pos hi]
        simp only [onTickSuccess, f6]
        omega
  | tickFailure i m =>
    simp only [step]
    cases hg : s.pendingTick.get? i with
    | none => exact same
    | some u =>
      have hi : i < s.pendingTick.length := by
        by_contra hlt
        rw [List.get?_eq_none.mpr (by omega)] at hg
        cases hg
      have hl : (s.pendingTick.eraseIdx i).length = s.pendingTick.length - 1 := by
        rw [List.length_eraseIdx, if_pos hi]
      refine ⟨⟨h1, h2, h3, h4, h5⟩, [], by simp [onTickFailure], ?_⟩
      simp only [onTickFailure, List.length_nil]
      omega

/-- Any sequence of platform events from a quiet state ends in a quiet state. -/
theorem run_quiet (es : List Event) (s : AppState) (hq : Quiet s)
    (hcb : ∀ e ∈ es, e.isCallback = true) :
    Quiet (run s es) ∧
      ∃ extra, (run s es).store = s.store ++ extra ∧
        extra.length + (run s es).pendingTick.length ≤ s.pendingTick.length := by
  induction es generalizing s with
  | nil => exact ⟨hq, [], by simp [run], by simp [run]⟩
  | cons e es ih =>
    obtain ⟨hq1, x1, hx1, hl1⟩ := step_quiet s e hq (hcb e (List.mem_cons_self e es))
    obtain ⟨hq2, x2, hx2, hl2⟩ :=
      ih (step s e) hq1 fun e' he' => hcb e' (List.mem_cons_of_mem e he')
    refine ⟨hq2, x1 ++ x2, ?_, ?_⟩
    · show (run (step s e) es).store = s.store ++ (x1 ++ x2)
      rw [hx2, hx1, List.append_assoc]
    · show (x1 ++ x2).length + (run (step s e) es).pendingTick.length ≤ s.pendingTick.length
      rw [List.length_append]
      omega

/-- When every active timer is the held one and no one-shot request is outstanding,
`stopTracking` leaves a quiet state, with the store and the pending tick requests as
they were. -/
theorem stopTracking_quiet (s : AppState) (hinit : s.pendingInitial = [])
    (hheld : ∀ t ∈ s.timers, s.trackingIntervalRef = some t.id) :
    Quiet (stopTracking s) ∧ (stopTracking s).store = s.store ∧
      (stopTracking s).pendingTick = s.pendingTick := by
  unfold stopTracking Quiet
  cases href : s.trackingIntervalRef with
  | none =>
    have : s.timers = [] := by
      cases hts : s.timers with
      | nil => rfl
      | cons t ts =>
        have := hheld t (by simp [hts])
        rw [href] at this
        cases this
    simp [this, href, hinit]
  | some id =>
    have : s.timers.filter (fun t => t.id != id) = [] := by
      rw [List.filter_eq_nil_iff]
      intro t ht
      have := hheld t ht
      rw [href] at this
      simp at this
      simp [this]
    simp [this, hinit]

/-- C6 (counterexample): `stopTracking` does not cancel position requests in flight.
Stopped while tracking with a tick's request in flight, the controller still appends
that tick's record afterwards (the store goes from one record to two). Stopped while
the one-shot request is outstanding, its later success callback moves the status to
`Tracking...`, appends a record and starts a timer. -/
theorem stop_then_callback_has_effect :
    tickInFlight.trackingStatus = "Tracking..." ∧
    tickInFlight.pendingTick = [some "operator"] ∧
    (stopTracking tickInFlight).store.length = 1 ∧
    (run (stopTracking tickInFlight) [.tickSuccess 0 samplePosition true]).store.length = 2 ∧
    requestingPermission.trackingStatus = "Requesting permission..." ∧
    (stopTracking requestingPermission).trackingStatus = "Idle" ∧
    (run (stopTracking requestingPermission)
      [.initialSuccess 0 samplePosition true]).trackingStatus = "Tracking..." ∧
    (run (stopTracking requestingPermission)
      [.initialSuccess 0 samplePosition true]).timers = [⟨1, some "operator"⟩] ∧
    (run (stopTracking requestingPermission)
      [.initialSuccess 0 samplePosition true]).store.length = 1 := by
  decide

/-- C6 (amended): when `stopTracking` is called with every active timer held in
`trackingIntervalRef` and no one-shot request outstanding, then after any later platform
events (callbacks and timer fires) no timer is active, none is held, the status is `Idle`
and `isTracking` is false; the store keeps its records and gains at most one record per
tick request that was in flight when `stopTracking` was called. -/
theorem stop_quiesces (s : AppState) (es : List Event)
    (hinit : s.pendingInitial = [])
    (hheld : ∀ t ∈ s.timers, s.trackingIntervalRef = some t.id)
    (hcb : ∀ e ∈ es, e.isCallback = true) :
    (run (stopTracking s) es).timers = [] ∧
    (run (stopTracking s) es).trackingIntervalRef = none ∧
    (run (stopTracking s) es).trackingStatus = "Idle" ∧
    (run (stopTracking s) es).isTracking = false ∧
    ∃ extra, (run (stopTracking s) es).store = s.store ++ extra ∧
      extra.length + (run (stopTracking s) es).pendingTick.length ≤ s.pendingTick.length := by
  obtain ⟨hq, hs, hp⟩ := stopTracking_quiet s hinit hheld
  obtain ⟨⟨h1, h2, h3, h4, _⟩, extra, hx, hl⟩ := run_quiet es (stopTracking s) hq hcb
  exact ⟨h1, h2, h3, h4, extra, by rw [hx, hs], by rw [hp] at hl; exact hl⟩

/-- Witness for C6 (amended): stop while tracking with one tick request in flight, then
the cancelled timer's fire and the tick's success callback. -/
theorem stop_quiesces_witness :
    tickInFlight.pendingInitial = [] ∧
    (∀ t ∈ tickInFlight.timers, tickInFlight.trackingIntervalRef = some t.id) ∧
    (run (stopTracking tickInFlight) [.timerFire 1, .tickSuccess 0 samplePosition true]).timers
      = [] ∧
    (run (stopTracking tickInFlight)
      [.timerFire 1, .tickSuccess 0 samplePosition true]).trackingStatus = "Idle" :=
  have h := stop_quiesces tickInFlight [.timerFire 1, .tickSuccess 0 samplePosition true]
    (by decide) (by decide) (by decide)
  ⟨by decide, by decide, h.1, h.2.2.1⟩

/-- C7 (the code at the failing input): `startTracking` twice before the first one-shot
request calls back, then both success callbacks. Two timers are active and only the
second is held in `trackingIntervalRef`; `stopTracking` cancels that one, the first timer
stays active, and its next tick still appends a record. -/
theorem double_start_leaks_timer :
    (run operatorState [.startTracking, .startTracking, .initialSuccess 0 samplePosition true,
      .initialSuccess 0 samplePosition true]).timers
      = [⟨1, some "operator"⟩, ⟨2, some "operator"⟩] ∧
    (run operatorState [.startTracking, .startTracking, .initialSuccess 0 samplePosition true,
      .initialSuccess 0 samplePosition true]).trackingIntervalRef = some 2 ∧
    (run operatorState [.startTracking, .startTracking, .initialSuccess 0 samplePosition true,
      .initialSuccess 0 samplePosition true, .stopTracking]).timers
      = [⟨1, some "operator"⟩] ∧
    (run operatorState [.startTracking, .startTracking, .initialSuccess 0 samplePosition true,
      .initialSuccess 0 samplePosition true, .stopTracking]).trackingIntervalRef = none ∧
    (run operatorState [.startTracking, .startTracking, .initialSuccess 0 samplePosition true,
      .initialSuccess 0 samplePosition true, .stopTracking, .timerFire 1,
      .tickSuccess 0 samplePosition true]).store.length = 3 := by
  decide

/-! ## The map update with nothing to draw -/

/-- C8 (counterexample): with an empty history effect 5 returns at its first line. After
a render that drew a path and a marker, a render with an empty history (so an empty
filtered set) leaves both layers on the map and the view fitted to the old path. -/
theorem emptyHistory_keeps_drawing :
    filteredPoints 0 evening [] = [] ∧
    updateMap true 0 evening [] drawnRefs = { refs := drawnRefs, thrown := none } ∧
    drawnRefs.mapRef = some
      { layers := [⟨0, .tile⟩, ⟨1, .polyline [⟨.finite 3 4, .finite (-61) 1⟩]⟩,
          ⟨2, .marker ⟨.finite 3 4, .finite (-61) 1⟩ (some 1717273800000)⟩]
        view := .fitBounds [⟨.finite 3 4, .finite (-61) 1⟩]
        nextLayerId := 3 } := by
  decide

/-- C8 (amended): when the history is not empty and the filtered set is empty, the render
step sets the view to centre [0,0] at zoom 2, takes the layers held in `polylineRef` and
`markerRef` off the map, keeps every other layer in place and creates no layer. With an
empty history the render step returns at once and changes nothing. -/
theorem emptyFiltered_resets_view (off : UtcOffset) (w : TimeWindow)
    (h : List LocationPoint) (refs : MapRefs) (map : LeafletMap)
    (hmap : refs.mapRef = some map) (hh : h ≠ [])
    (hf : filteredPoints off w h = []) :
    (∃ map', (updateMap true off w h refs).refs.mapRef = some map' ∧
      map'.view = .setView 0 0 2 ∧
      map'.nextLayerId = map.nextLayerId ∧
      map'.layers.Sublist map.layers ∧
      ∀ l, l ∈ map'.layers ↔
        (l ∈ map.layers ∧ (∀ p, refs.polylineRef = some p → l.id ≠ p.id) ∧
          (∀ m, refs.markerRef = some m → l.id ≠ m.id))) ∧
    (updateMap true off w h refs).thrown = none ∧
    (∀ loaded, updateMap loaded off w [] refs = { refs := refs, thrown := none }) := by
  have hlen : h.length ≠ 0 := by simpa using hh
  refine ⟨?_, ?_, ?_⟩
  · unfold updateMap
    rw [hmap]
    simp only [hf, hlen, List.map_nil, List.length_nil, false_or, if_false, gt_iff_lt,
      lt_self_iff_false]
    cases hp : refs.polylineRef <;> cases hm : refs.markerRef <;>
      simp [LeafletMap.removeLayer, List.mem_filter, List.filter_filter, and_assoc]
    exact fun _ _ => and_comm
  · unfold updateMap
    rw [hmap]
    simp [hf, hlen]
  · intro loaded
    unfold updateMap
    cases refs.mapRef <;> simp

/-- Witness for C8 (amended): after the render that drew the 20:30 record, a history
holding only the 08:00 record filters to nothing; the map is left with its tile layer
and the world view. -/
theorem emptyFiltered_resets_view_witness :
    [utc0800] ≠ [] ∧ filteredPoints 0 evening [utc0800] = [] ∧
    (updateMap true 0 evening [utc0800] drawnRefs).refs.mapRef =
      some { layers := [⟨0, .tile⟩], view := .setView 0 0 2, nextLayerId := 3 } ∧
    (∃ map', (updateMap true 0 evening [utc0800] drawnRefs).refs.mapRef = some map' ∧
      map'.view = .setView 0 0 2) :=
  have h := emptyFiltered_resets_view 0 evening [utc0800] drawnRefs
    { layers := [⟨0, .tile⟩, ⟨1, .polyline [⟨.finite 3 4, .finite (-61) 1⟩]⟩,
          ⟨2, .marker ⟨.finite 3 4, .finite (-61) 1⟩ (some 1717273800000)⟩]
      view := .fitBounds [⟨.finite 3 4, .finite (-61) 1⟩]
      nextLayerId := 3 } (by decide) (by decide) (by decide)
  ⟨by decide, by decide, by decide, h.1.elim fun m hm => ⟨m, hm.1, hm.2.1⟩⟩

/-! ## The record built by `saveLocation` -/

/-- C9 (the code at the failing input): a position that reports altitude 0. The record
built has no altitude, because `altitude || null` takes 0 for a missing value. -/
theorem zero_altitude_dropped :
    seaLevelPosition.coords.altitude = some (.finite 0 0) ∧
    (buildLocationData (some "operator") seaLevelPosition).altitude = none ∧
    (saveLocation (some "operator") seaLevelPosition true operatorState).store =
      [{ latitude := .finite 3 4, longitude := .finite (-61) 1,
         accuracy := some (.finite 5 1), altitude := none,
         trackerUserId := some "operator" }] := by
  decide

/-! ## Starting without an identity -/

/-- C10: `startTracking` with no `userId` sets the error message asking to log in and
changes nothing else: no position request is issued, no timer is started, the status and
the `isTracking` flag stay as they were, so from `Idle` the status stays `Idle` and is
not `Requesting permission...`. -/
theorem startTracking_unauthenticated (s : AppState) (hid : strTruthy s.userId = false) :
    step s .startTracking = { s with locationError := "Please log in to start tracking." } ∧
    (step s .startTracking).locationError = "Please log in to start tracking." ∧
    (step s .startTracking).pendingInitial = s.pendingInitial ∧
    (step s .startTracking).pendingTick = s.pendingTick ∧
    (step s .startTracking).timers = s.timers ∧
    (step s .startTracking).trackingIntervalRef = s.trackingIntervalRef ∧
    (step s .startTracking).store = s.store ∧
    (step s .startTracking).trackingStatus = s.trackingStatus ∧
    (step s .startTracking).isTracking = s.isTracking ∧
    (s.trackingStatus = "Idle" →
      (step s .startTracking).trackingStatus = "Idle" ∧
      (step s .startTracking).trackingStatus ≠ "Requesting permission...") := by
  have hs : step s .startTracking =
      { s with locationError := "Please log in to start tracking." } := by
    simp [step, startTracking, hid]
  rw [hs]
  refine ⟨rfl, rfl, rfl, rfl, rfl, rfl, rfl, rfl, rfl, fun hidle => ?_⟩
  simp only [hidle]
  decide

/-- Witness for C10: a fresh component with nobody signed in. -/
theorem startTracking_unauthenticated_witness :
    strTruthy (initialState none true).userId = false ∧
    step (initialState none true) .startTracking =
      { initialState none true with locationError := "Please log in to start tracking." } ∧
    (step (initialState none true) .startTracking).trackingStatus = "Idle" :=
  have h := startTracking_unauthenticated (initialState none true) (by decide)
  ⟨by decide, h.1, (h.2.2.2.2.2.2.2.2.2 (by decide)).1⟩

/-! ## `stopTracking` as an operation -/

/-- C11: from every state `stopTracking` yields status `Idle`, `isTracking` false, an empty
error message and no held timer handle, the timer that was held being no longer active;
a second `stopTracking` right after the first changes nothing. -/
theorem stopTracking_idle_idempotent (s : AppState) :
    (step s .stopTracking).trackingStatus = "Idle" ∧
    (step s .stopTracking).isTracking = false ∧
    (step s .stopTracking).locationError = "" ∧
    (step s .stopTracking).trackingIntervalRef = none ∧
    (∀ t ∈ (step s .stopTracking).timers, s.trackingIntervalRef ≠ some t.id) ∧
    step (step s .stopTracking) .stopTracking = step s .stopTracking := by
  simp only [step]
  unfold stopTracking
  cases href : s.trackingIntervalRef with
  | none => simp [href]
  | some id =>
    refine ⟨rfl, rfl, rfl, rfl, ?_, rfl⟩
    intro t ht
    simp only [List.mem_filter] at ht
    intro heq
    have hid : id = t.id := Option.some.inj heq
    simp [hid] at ht

/-- Witness for C11: stop while tracking with timer 1 held. -/
theorem stopTracking_idle_idempotent_witness :
    tickInFlight.trackingIntervalRef = some 1 ∧
    (step tickInFlight .stopTracking).timers = [] ∧
    (step tickInFlight .stopTracking).trackingStatus = "Idle" ∧
    step (step tickInFlight .stopTracking) .stopTracking = step tickInFlight .stopTracking :=
  have h := stopTracking_idle_idempotent tickInFlight
  ⟨by decide, by decide, h.1, h.2.2.2.2.2⟩

/-! ## Failures that do not end the session -/

/-- A timer that is active fires: the interval callback adds one pending tick request
and leaves the timers as they are. -/
theorem timerFire_enabled (s : AppState) (t : Timer) (ht : t ∈ s.timers) :
    (step s (.timerFire t.id)).pendingTick.length = s.pendingTick.length + 1 ∧
    (step s (.timerFire t.id)).timers = s.timers := by
  simp only [step]
  cases hf : s.timers.find? (fun x => x.id == t.id) with
  | none =>
    rw [List.find?_eq_none] at hf
    have := hf t ht
    simp at this
  | some timer => simp [onTimerFire]

/-- The fields a tick's error callback leaves alone. -/
theorem tickFailure_frame (s : AppState) (i : Nat) (message : String) :
    (step s (.tickFailure i message)).trackingStatus = s.trackingStatus ∧
    (step s (.tickFailure i message)).isTracking = s.isTracking ∧
    (step s (.tickFailure i message)).timers = s.timers ∧
    (step s (.tickFailure i message)).trackingIntervalRef = s.trackingIntervalRef ∧
    (step s (.tickFailure i message)).store = s.store ∧
    (step s (.tickFailure i message)).nextTimerId = s.nextTimerId ∧
    (step s (.tickFailure i message)).pendingInitial = s.pendingInitial := by
  simp only [step]
  cases s.pendingTick.get? i <;> simp [onTickFailure]

/-- The fields a tick's success callback leaves alone when the append fails. -/
theorem tickAppendFailure_frame (s : AppState) (i : Nat) (position : Position) :
    (step s (.tickSuccess i position false)).trackingStatus = s.trackingStatus ∧
    (step s (.tickSuccess i position false)).isTracking = s.isTracking ∧
    (step s (.tickSuccess i position false)).timers = s.timers ∧
    (step s (.tickSuccess i position false)).trackingIntervalRef = s.trackingIntervalRef ∧
    (step s (.tickSuccess i position false)).store = s.store ∧
    (step s (.tickSuccess i position false)).nextTimerId = s.nextTimerId ∧
    (step s (.tickSuccess i position false)).pendingInitial = s.pendingInitial := by
  simp only [step]
  cases s.pendingTick.get? i with
  | none => simp
  | some u =>
    simp only [onTickSuccess, saveLocation]
    cases strTruthy u <;> simp

/-- C12: while the status is `Tracking...`, a failed tick request and a failed append of
a tick's sample leave the status, the `isTracking` flag, the active timers, the held
handle and the store as they were, and every active timer still fires afterwards; the
failed request sets `locationError` to the geolocation message, the failed append sets
it to the save message. -/
theorem nonfatal_failure_keeps_tracking (s : AppState) (i : Nat) (message : String)
    (position : Position)
    (hstatus : s.trackingStatus = "Tracking...") (htrack : s.isTracking = true) :
    (∀ s', (s' = step s (.tickFailure i message) ∨
        s' = step s (.tickSuccess i position false)) →
      s'.trackingStatus = "Tracking..." ∧ s'.isTracking = true ∧
      s'.timers = s.timers ∧ s'.trackingIntervalRef = s.trackingIntervalRef ∧
      s'.store = s.store ∧ s'.nextTimerId = s.nextTimerId ∧
      s'.pendingInitial = s.pendingInitial ∧
      ∀ t ∈ s.timers,
        (step s' (.timerFire t.id)).pendingTick.length = s'.pendingTick.length + 1 ∧
        (step s' (.timerFire t.id)).timers = s.timers) ∧
    (∀ u, s.pendingTick.get? i = some u →
      (step s (.tickFailure i message)).locationError =
        if jsIncludes message "permissions policy" then policyMessage
        else "Geolocation error: " ++ message) ∧
    (∀ u, s.pendingTick.get? i = some u → strTruthy u = true →
      (step s (.tickSuccess i position false)).locationError =
        "Failed to save location data.") := by
  refine ⟨?_, ?_, ?_⟩
  · intro s' hs'
    have frame : s'.trackingStatus = s.trackingStatus ∧ s'.isTracking = s.isTracking ∧
        s'.timers = s.timers ∧ s'.trackingIntervalRef = s.trackingIntervalRef ∧
        s'.store = s.store ∧ s'.nextTimerId = s.nextTimerId ∧
        s'.pendingInitial = s.pendingInitial := by
      rcases hs' with h | h
      · rw [h]; exact tickFailure_frame s i message
      · rw [h]; exact tickAppendFailure_frame s i position
    obtain ⟨f1, f2, f3, f4, f5, f6, f7⟩ := frame
    refine ⟨f1.trans hstatus, f2.trans htrack, f3, f4, f5, f6, f7, ?_⟩
    intro t ht
    have := timerFire_enabled s' t (by rw [f3]; exact ht)
    exact ⟨this.1, this.2.trans f3⟩
  · intro u hu
    simp only [step]
    rw [hu]
    simp [onTickFailure]
  · intro u hu hut
    simp only [step]
    rw [hu]
    simp [onTickSuccess, saveLocation, hut]

/-- Witness for C12: tracking with one tick request in flight; the request fails, or it
succeeds and the append fails. -/
theorem nonfatal_failure_keeps_tracking_witness :
    tickInFlight.trackingStatus = "Tracking..." ∧ tickInFlight.isTracking = true ∧
    (step tickInFlight (.tickFailure 0 "Timeout expired")).trackingStatus = "Tracking..." ∧
    (step tickInFlight (.tickFailure 0 "Timeout expired")).locationError =
      "Geolocation error: Timeout expired" ∧
    (step tickInFlight (.tickSuccess 0 samplePosition false)).locationError =
      "Failed to save location data." ∧
    (step tickInFlight (.tickSuccess 0 samplePosition false)).timers =
      tickInFlight.timers :=
  have h := nonfatal_failure_keeps_tracking tickInFlight 0 "Timeout expired" samplePosition
    (by decide) (by decide)
  ⟨by decide, by decide, (h.1 _ (Or.inl rfl)).1, by decide,
    h.2.2 (some "operator") (by decide) (by decide), (h.1 _ (Or.inr rfl)).2.2.1⟩

/-! ## Records without a timestamp -/

/-- C14: a record without a timestamp is never in the filter output, and taking it out
of the history, wherever it stands, leaves the output as it is. -/
theorem missing_timestamp_excluded (off : UtcOffset) (w : TimeWindow) (r : LocationPoint)
    (hr : r.timestamp = none) :
    keepPoint off w r = false ∧
    (∀ h, r ∉ filteredPoints off w h) ∧
    (∀ h1 h2, filteredPoints off w (h1 ++ r :: h2) = filteredPoints off w (h1 ++ h2)) := by
  have hk : keepPoint off w r = false := by
    unfold keepPoint
    rw [hr]
  refine ⟨hk, ?_, ?_⟩
  · intro h hmem
    have := (List.mem_filter.mp hmem).2
    rw [hk] at this
    cases this
  · intro h1 h2
    simp [filteredPoints, List.filter_append, List.filter_cons, hk]

/-- Witness for C14: a pending record between the 08:00 and the 20:30 record. -/
theorem missing_timestamp_excluded_witness :
    pendingPoint.timestamp = none ∧
    filteredPoints 0 evening [utc0800, pendingPoint, utc2030] = [utc2030] ∧
    filteredPoints 0 evening ([utc0800] ++ pendingPoint :: [utc2030]) =
      filteredPoints 0 evening ([utc0800] ++ [utc2030]) :=
  ⟨rfl, by decide,
    (missing_timestamp_excluded 0 evening pendingPoint rfl).2.2 [utc0800] [utc2030]⟩

/-! ## The map update with something to draw -/

/-- Taking the held layers off a map that satisfies the render invariant leaves the tile
layer alone on it. -/
theorem removeHeld_layers (polylineRef markerRef : Option Layer) (map : LeafletMap) :
    (∀ p, polylineRef = some p → p.id ≠ 0 ∧ p.id < map.nextLayerId) →
    (∀ m, markerRef = some m → m.id ≠ 0 ∧ m.id < map.nextLayerId) →
    (map.layers = [tileLayer] ∨
      ∃ p m, polylineRef = some p ∧ markerRef = some m ∧ map.layers = [tileLayer, p, m]) →
    (match markerRef with
      | some l => (match polylineRef with
          | some l => map.removeLayer l
          | none => map).removeLayer l
      | none => (match polylineRef with
          | some l => map.removeLayer l
          | none => map)).layers = [tileLayer] := by
  intro hp hm hl
  obtain ⟨layers, view, n⟩ := map
  simp only at hp hm hl
  rcases hl with hl | ⟨p, m, hpr, hmr, hl⟩
  · subst hl
    cases polylineRef with
    | none =>
      cases markerRef with
      | none => rfl
      | some m =>
        have := (hm m rfl).1
        simp [LeafletMap.removeLayer, tileLayer, Ne.symm this]
    | some p =>
      have h1 := (hp p rfl).1
      cases markerRef with
      | none => simp [LeafletMap.removeLayer, tileLayer, Ne.symm h1]
      | some m =>
        have h2 := (hm m rfl).1
        simp [LeafletMap.removeLayer, tileLayer, Ne.symm h1, Ne.symm h2]
  · subst hpr hmr hl
    have h1 := (hp p rfl).1
    have h2 := (hm m rfl).1
    simp [LeafletMap.removeLayer, tileLayer, Ne.symm h1, Ne.symm h2, List.filter_cons]

/-- Effect 5 on refs that satisfy the render invariant, for a history that is not empty:
with nothing left after filtering the map keeps its tile layer and shows the world; when
a record left has a `NaN` coordinate the effect throws with the tile layer alone on the
map; otherwise the map holds the tile layer, a new polyline through the records and a new
marker at the last one, and the view is fitted to the polyline. -/
theorem updateMap_of_inv (off : UtcOffset) (w : TimeWindow) (h : List LocationPoint)
    (refs : MapRefs) (map : LeafletMap) (hmap : refs.mapRef = some map)
    (hp : ∀ p, refs.polylineRef = some p → p.id ≠ 0 ∧ p.id < map.nextLayerId)
    (hm : ∀ m, refs.markerRef = some m → m.id ≠ 0 ∧ m.id < map.nextLayerId)
    (hl : map.layers = [tileLayer] ∨
      ∃ p m, refs.polylineRef = some p ∧ refs.markerRef = some m ∧
        map.layers = [tileLayer, p, m])
    (hh : h ≠ []) :
    updateMap true off w h refs =
      match (filteredPoints off w h).getLast? with
      | none =>
        { refs := { refs with
            mapRef := some { map with layers := [tileLayer], view := .setView 0 0 2 } }
          thrown := none }
      | some last =>
        match ((filteredPoints off w h).map fun point =>
            LatLng.mk point.latitude point.longitude).find? (fun p => !p.isValid) with
        | some bad =>
          { refs := { refs with mapRef := some { map with layers := [tileLayer] } }
            thrown := some (.invalidLatLng bad) }
        | none =>
          { refs :=
              { mapRef := some
                  { layers := [tileLayer,
                      ⟨map.nextLayerId, .polyline
                        ((filteredPoints off w h).map fun point =>
                          LatLng.mk point.latitude point.longitude)⟩,
                      ⟨map.nextLayerId + 1,
                        .marker ⟨last.latitude, last.longitude⟩ last.timestamp⟩]
                    view := .fitBounds
                      ((filteredPoints off w h).map fun point =>
                        LatLng.mk point.latitude point.longitude)
                    nextLayerId := map.nextLayerId + 2 }
                polylineRef := some ⟨map.nextLayerId, .polyline
                  ((filteredPoints off w h).map fun point =>
                    LatLng.mk point.latitude point.longitude)⟩
                markerRef := some ⟨map.nextLayerId + 1,
                  .marker ⟨last.latitude, last.longitude⟩ last.timestamp⟩ }
            thrown := none } := by
  have hlen : h.length ≠ 0 := by simpa using hh
  have key := removeHeld_layers refs.polylineRef refs.markerRef map hp hm hl
  unfold updateMap
  rw [hmap]
  simp only [hlen, false_or, if_false]
  cases hlast : (filteredPoints off w h).getLast? with
  | none =>
    have hnil : filteredPoints off w h = [] := List.getLast?_eq_none_iff.mp hlast
    simp only [hnil, List.map_nil, List.length_nil, gt_iff_lt, lt_self_iff_false, if_false]
    cases hpr : refs.polylineRef <;> cases hmr : refs.markerRef <;>
      simp only [hpr, hmr] at key ⊢ <;>
      (try simp only [LeafletMap.removeLayer] at key ⊢) <;>
      simp [key]
  | some last =>
    have hne : filteredPoints off w h ≠ [] := by
      intro hnil
      rw [hnil] at hlast
      cases hlast
    have hpos : ((filteredPoints off w h).map fun point =>
        LatLng.mk point.latitude point.longitude).length > 0 := by
      rw [List.length_map]
      exact List.length_pos.mpr hne
    have hlastMap : ((filteredPoints off w h).map fun point =>
        LatLng.mk point.latitude point.longitude).getLast? =
          some ⟨last.latitude, last.longitude⟩ := by
      rw [List.getLast?_map, hlast]
      rfl
    simp only [hpos, if_true, hlastMap]
    cases hbad : ((filteredPoints off w h).map fun point =>
        LatLng.mk point.latitude point.longitude).find? (fun p => !p.isValid) with
    | some bad =>
      cases hpr : refs.polylineRef <;> cases hmr : refs.markerRef <;>
        simp only [hpr, hmr] at key ⊢ <;>
        (try simp only [LeafletMap.removeLayer] at key ⊢) <;>
        simp [key]
      cases map
      simp_all
    | none =>
      cases hpr : refs.polylineRef <;> cases hmr : refs.markerRef <;>
        simp only [hpr, hmr] at key ⊢ <;>
        (try simp only [LeafletMap.removeLayer] at key ⊢) <;>
        simp [LeafletMap.addNew, key]

/-- Effect 5 returns the refs as they are, without throwing, when the history is empty
or Leaflet is not loaded. -/
theorem updateMap_guard (loaded : Bool) (off : UtcOffset) (w : TimeWindow)
    (h : List LocationPoint) (refs : MapRefs) (hg : h = [] ∨ loaded = false) :
    updateMap loaded off w h refs = { refs := refs, thrown := none } := by
  unfold updateMap
  cases refs.mapRef with
  | none => rfl
  | some map => rcases hg with hg | hg <;> simp [hg]

/-- The refs before the first render satisfy the render invariant. -/
theorem renderInv_initial : RenderInv initialRefs :=
  ⟨initialMap, rfl, by decide, fun _ hp => (by cases hp), fun _ hm => (by cases hm),
    Or.inl rfl⟩

/-- One run of effect 5 keeps the render invariant, whether it completes or throws. -/
theorem updateMap_renderInv (loaded : Bool) (off : UtcOffset) (w : TimeWindow)
    (h : List LocationPoint) (refs : MapRefs) (hinv : RenderInv refs) :
    RenderInv (updateMap loaded off w h refs).refs := by
  by_cases hg : h = [] ∨ loaded = false
  · rw [updateMap_guard loaded off w h refs hg]
    exact hinv
  · have hh : h ≠ [] := fun hnil => hg (Or.inl hnil)
    have hload : loaded = true := by
      cases loaded
      · exact absurd (Or.inr rfl) hg
      · rfl
    subst hload
    obtain ⟨map, hmap, hpos, hp, hm, hl⟩ := hinv
    rw [updateMap_of_inv off w h refs map hmap hp hm hl hh]
    cases (filteredPoints off w h).getLast? with
    | none => exact ⟨_, rfl, hpos, hp, hm, Or.inl rfl⟩
    | some last =>
      cases ((filteredPoints off w h).map fun point =>
          LatLng.mk point.latitude point.longitude).find? (fun p => !p.isValid) with
      | some bad => exact ⟨_, rfl, hpos, hp, hm, Or.inl rfl⟩
      | none =>
        refine ⟨_, rfl, by simp, ?_, ?_, Or.inr ⟨_, _, rfl, rfl, rfl⟩⟩
        · intro p hpeq
          have := Option.some.inj hpeq
          subst this
          simp only
          omega
        · intro m hmeq
          have := Option.some.inj hmeq
          subst this
          simp only
          omega

/-- Every sequence of renders keeps the render invariant. -/
theorem renders_renderInv (inputs : List RenderInput) (refs : MapRefs)
    (hinv : RenderInv refs) : RenderInv (renders refs inputs).refs := by
  induction inputs generalizing refs with
  | nil => exact hinv
  | cons i rest ih =>
    have hstep :=
      updateMap_renderInv i.isLeafletLoaded i.off i.window i.locationHistory refs hinv
    unfold renders
    cases hres : updateMap i.isLeafletLoaded i.off i.window i.locationHistory refs with
    | mk refs1 thrown =>
      rw [hres] at hstep
      cases thrown with
      | none => exact ih refs1 hstep
      | some e => exact hstep

/-- A filtered record with a `NaN` coordinate makes effect 5 throw: at the history of a
`NaN` record followed by the 21:00 record, on a fresh map, nothing is drawn, the refs
stay empty and the error names the `NaN` point. -/
theorem updateMap_invalid_latLng :
    updateMap true 0 evening [nanPoint, utc2100] initialRefs =
      { refs := initialRefs
        thrown := some (.invalidLatLng ⟨.nan, .finite (-61) 1⟩) } := by
  decide

/-- C13: after any sequence of earlier renders, a render whose filtered set is not empty
and holds no `NaN` coordinate completes and leaves on the map the tile
layer, one new polyline through the filtered records' positions in filtered order and one
new marker at the last filtered record, holds both in the refs and fits the view to the
polyline; no polyline or marker that was on the map before is on it afterwards. -/
theorem render_draws_one_path (inputs : List RenderInput) (off : UtcOffset) (w : TimeWindow)
    (h : List LocationPoint)
    (hne : filteredPoints off w h ≠ [])
    (hvalid : ∀ p ∈ filteredPoints off w h, p.latitude ≠ .nan ∧ p.longitude ≠ .nan) :
    ∃ map last, (renders initialRefs inputs).refs.mapRef = some map ∧
      (filteredPoints off w h).getLast? = some last ∧
      updateMap true off w h (renders initialRefs inputs).refs =
        { refs :=
            { mapRef := some
                { layers := [tileLayer,
                    ⟨map.nextLayerId, .polyline
                      ((filteredPoints off w h).map fun point =>
                        LatLng.mk point.latitude point.longitude)⟩,
                    ⟨map.nextLayerId + 1,
                      .marker ⟨last.latitude, last.longitude⟩ last.timestamp⟩]
                  view := .fitBounds
                    ((filteredPoints off w h).map fun point =>
                      LatLng.mk point.latitude point.longitude)
                  nextLayerId := map.nextLayerId + 2 }
              polylineRef := some ⟨map.nextLayerId, .polyline
                ((filteredPoints off w h).map fun point =>
                  LatLng.mk point.latitude point.longitude)⟩
              markerRef := some ⟨map.nextLayerId + 1,
                .marker ⟨last.latitude, last.longitude⟩ last.timestamp⟩ }
          thrown := none } ∧
      ∀ l ∈ map.layers, l ≠ tileLayer →
        l ∉ [tileLayer,
          ⟨map.nextLayerId, .polyline
            ((filteredPoints off w h).map fun point =>
              LatLng.mk point.latitude point.longitude)⟩,
          ⟨map.nextLayerId + 1, .marker ⟨last.latitude, last.longitude⟩ last.timestamp⟩] := by
  obtain ⟨map, hmap, hpos, hp, hm, hl⟩ := renders_renderInv inputs initialRefs renderInv_initial
  have hh : h ≠ [] := by
    intro hnil
    apply hne
    simp [hnil, filteredPoints]
  have hup := updateMap_of_inv off w h (renders initialRefs inputs).refs map hmap hp hm hl hh
  have hfind : ((filteredPoints off w h).map fun point =>
      LatLng.mk point.latitude point.longitude).find? (fun p => !p.isValid) = none := by
    rw [List.find?_eq_none]
    intro q hq
    obtain ⟨p, hpmem, rfl⟩ := List.mem_map.mp hq
    obtain ⟨hlat, hlng⟩ := hvalid p hpmem
    cases hla : p.latitude with
    | nan => exact absurd hla hlat
    | finite a b =>
      cases hlo : p.longitude with
      | nan => exact absurd hlo hlng
      | finite c d => simp [LatLng.isValid, hla, hlo]
  cases hlast : (filteredPoints off w h).getLast? with
  | none => exact absurd (List.getLast?_eq_none_iff.mp hlast) hne
  | some last =>
    rw [hlast] at hup
    simp only [hfind] at hup
    refine ⟨map, last, hmap, rfl, hup, ?_⟩
    intro l hlmem hltile
    have hid : l.id < map.nextLayerId := by
      rcases hl with hl | ⟨p, m, hpr, hmr, hl⟩
      · rw [hl] at hlmem
        simp at hlmem
        exact absurd hlmem hltile
      · rw [hl] at hlmem
        simp only [List.mem_cons, List.mem_singleton, List.not_mem_nil, or_false] at hlmem
        rcases hlmem with h1 | h1 | h1
        · exact absurd h1 hltile
        · rw [h1]; exact (hp p hpr).2
        · rw [h1]; exact (hm m hmr).2
    simp only [List.mem_cons, List.mem_singleton, List.not_mem_nil, or_false, not_or]
    refine ⟨hltile, ?_, ?_⟩
    · intro heq
      rw [heq] at hid
      simp at hid
    · intro heq
      rw [heq] at hid
      simp at hid

/-- Witness for C13: a first render draws the 20:30 record; a second render with the
19:00 and 21:00 records leaves the tile layer, the new path and the marker at the 21:00
record. -/
theorem render_draws_one_path_witness :
    (renders initialRefs [firstRender]).thrown = none ∧
    filteredPoints 0 evening [utc1900, utc2100] ≠ [] ∧
    (∀ p ∈ filteredPoints 0 evening [utc1900, utc2100],
      p.latitude ≠ .nan ∧ p.longitude ≠ .nan) ∧
    updateMap true 0 evening [utc1900, utc2100] (renders initialRefs [firstRender]).refs =
      { refs :=
          { mapRef := some
              { layers := [tileLayer,
                  ⟨3, .polyline [⟨.finite 3 4, .finite (-61) 1⟩, ⟨.finite 3 4, .finite (-61) 1⟩]⟩,
                  ⟨4, .marker ⟨.finite 3 4, .finite (-61) 1⟩ (some 1717275600000)⟩]
                view := .fitBounds
                  [⟨.finite 3 4, .finite (-61) 1⟩, ⟨.finite 3 4, .finite (-61) 1⟩]
                nextLayerId := 5 }
            polylineRef := some
              ⟨3, .polyline [⟨.finite 3 4, .finite (-61) 1⟩, ⟨.finite 3 4, .finite (-61) 1⟩]⟩
            markerRef := some
              ⟨4, .marker ⟨.finite 3 4, .finite (-61) 1⟩ (some 1717275600000)⟩ }
        thrown := none } ∧
    (∃ map last, (renders initialRefs [firstRender]).refs.mapRef = some map ∧
      (filteredPoints 0 evening [utc1900, utc2100]).getLast? = some last) :=
  have h := render_draws_one_path [firstRender] 0 evening [utc1900, utc2100]
    (by decide) (by decide)
  ⟨by decide, by decide, by decide, by decide,
    h.elim fun map hm => hm.elim fun last hl => ⟨map, last, hl.1, hl.2.1⟩⟩

end GreenLake
